import Mathlib

/-!
Shallow embedding of the chat membership / authorization core of the
`meduzzen` messenger backend (src/chat_operations.py, src/models.py).

Modelling conventions:
- The SQLAlchemy session/tables become an explicit `DB` record of lists; a
  query `.filter(...).first()` becomes `List.find?`, `.all()` becomes
  `List.filter`, committed inserts append to the list, and auto-increment
  primary keys are per-table counters on `DB`.
- `HTTPException(status_code, detail)` raised by an operation becomes
  `Except.error` of an `HTTPException` value carrying the same status code
  and detail string; a normal return becomes `Except.ok` paired with the
  updated `DB`.
- `datetime.utcnow()` / server-side `func.now()` timestamps are supplied as
  explicit `Nat` parameters (logical clock); column defaults
  (`is_deleted=False`, `updated_at=None` until first edit) are applied at
  insert, as the ORM does.
-/

/-- `MemberStatus` enum from models.py. -/
inductive MemberStatus where
  | ACTIVE
  | BLOCKED
  | LEFT
deriving DecidableEq, Repr

/-- `MemberRole` enum from models.py (only PARTICIPANT exists). -/
inductive MemberRole where
  | PARTICIPANT
deriving DecidableEq, Repr

/-- `ChatType` enum from models.py (only PRIVATE exists). -/
inductive ChatType where
  | PRIVATE
deriving DecidableEq, Repr

/-- `MessageType` enum from models.py. -/
inductive MessageType where
  | TEXT
  | FILE
  | SYSTEM
deriving DecidableEq, Repr

/-- `users` table row (fields the core reads: the id). -/
structure User where
  id : Nat
  username : String
  email : String
deriving DecidableEq, Repr

/-- `chats` table row. -/
structure Chat where
  id : Nat
  chat_type : ChatType
  creator_id : Nat
  recipient_id : Nat
  is_active : Bool
deriving DecidableEq, Repr

/-- `chat_members` table row. -/
structure ChatMember where
  id : Nat
  user_id : Nat
  chat_id : Nat
  role : MemberRole
  status : MemberStatus
deriving DecidableEq, Repr

/-- `messages` table row. -/
structure Message where
  id : Nat
  content : String
  message_type : MessageType
  author_id : Nat
  chat_id : Nat
  created_at : Nat
  updated_at : Option Nat
  is_deleted : Bool
deriving DecidableEq, Repr

/-- `file_attachments` table row. -/
structure FileAttachment where
  id : Nat
  filename : String
  file_path : String
  file_size : Nat
  mime_type : String
  message_id : Nat
deriving DecidableEq, Repr

/-- The database: the four core tables plus per-table auto-increment counters. -/
structure DB where
  users : List User
  chats : List Chat
  chat_members : List ChatMember
  messages : List Message
  attachments : List FileAttachment
  next_chat_id : Nat
  next_member_id : Nat
  next_message_id : Nat
  next_attachment_id : Nat
deriving DecidableEq, Repr

/-- A raised `HTTPException(status_code=..., detail=...)`. -/
structure HTTPException where
  status_code : Nat
  detail : String
deriving DecidableEq, Repr

/-- `MAX_FILE_SIZE = 10 * 1024 * 1024` from chat_operations.py. -/
def MAX_FILE_SIZE : Nat := 10 * 1024 * 1024

/-- `ALLOWED_EXTENSIONS` from chat_operations.py. -/
def ALLOWED_EXTENSIONS : List String :=
  [".txt", ".pdf", ".doc", ".docx", ".jpg", ".jpeg", ".png", ".gif"]

/-- The symmetric private-chat lookup filter used by both
`create_private_chat` and `get_or_create_private_chat`:
`((creator==a) & (recipient==b)) | ((creator==b) & (recipient==a))`
conjoined with `chat_type == PRIVATE`. -/
def privateChatFilter (a b : Nat) (c : Chat) : Bool :=
  ((c.creator_id == a && c.recipient_id == b) ||
   (c.creator_id == b && c.recipient_id == a)) &&
  (c.chat_type == ChatType.PRIVATE)

/-- The `ChatMember` filter for an ACTIVE membership row of `(chat_id, user_id)`,
used by `_ensure_user_membership`, `send_message` and `is_user_in_chat`. -/
def activeMemberFilter (chat_id user_id : Nat) (m : ChatMember) : Bool :=
  m.chat_id == chat_id && m.user_id == user_id && m.status == MemberStatus.ACTIVE

/-- `_ensure_user_membership(db, chat_id, user_id)`: create an ACTIVE
participant membership if missing; no-op when an ACTIVE row already exists. -/
def ensure_user_membership (db : DB) (chat_id user_id : Nat) : DB :=
  match db.chat_members.find? (activeMemberFilter chat_id user_id) with
  | some _ => db
  | none =>
    { db with
      chat_members := db.chat_members ++
        [{ id := db.next_member_id, user_id := user_id, chat_id := chat_id,
           role := MemberRole.PARTICIPANT, status := MemberStatus.ACTIVE }],
      next_member_id := db.next_member_id + 1 }

/-- The fresh `Chat(chat_type=PRIVATE, creator_id=..., recipient_id=...)` row
that `create_private_chat` inserts when no chat exists for the pair. -/
def newPrivateChat (db : DB) (creator_id recipient_id : Nat) : Chat :=
  { id := db.next_chat_id, chat_type := ChatType.PRIVATE,
    creator_id := creator_id, recipient_id := recipient_id, is_active := true }

/-- The database after `create_private_chat` commits the fresh chat row and
the two ACTIVE PARTICIPANT membership rows for creator and recipient. -/
def dbAfterCreateChat (db : DB) (creator_id recipient_id : Nat) : DB :=
  { db with
    chats := db.chats ++ [newPrivateChat db creator_id recipient_id],
    next_chat_id := db.next_chat_id + 1,
    chat_members := db.chat_members ++
      [{ id := db.next_member_id, user_id := creator_id, chat_id := db.next_chat_id,
         role := MemberRole.PARTICIPANT, status := MemberStatus.ACTIVE },
       { id := db.next_member_id + 1, user_id := recipient_id, chat_id := db.next_chat_id,
         role := MemberRole.PARTICIPANT, status := MemberStatus.ACTIVE }],
    next_member_id := db.next_member_id + 2 }

/-- `create_private_chat(db, creator_id, recipient_id)`. Checks the recipient
exists, rejects self-chat, returns an existing chat for the unordered pair
(healing both memberships), otherwise inserts the chat and both ACTIVE
membership rows. -/
def create_private_chat (db : DB) (creator_id recipient_id : Nat) :
    Except HTTPException (Chat × DB) :=
  match db.users.find? (fun u => u.id == recipient_id) with
  | none => Except.error { status_code := 404, detail := "Recipient user not found" }
  | some _ =>
    if creator_id == recipient_id then
      Except.error { status_code := 400, detail := "Cannot create chat with yourself" }
    else
      match db.chats.find? (privateChatFilter creator_id recipient_id) with
      | some existing_chat =>
        let db1 := ensure_user_membership db existing_chat.id creator_id
        let db2 := ensure_user_membership db1 existing_chat.id recipient_id
        Except.ok (existing_chat, db2)
      | none =>
        Except.ok (newPrivateChat db creator_id recipient_id,
          dbAfterCreateChat db creator_id recipient_id)

/-- `get_or_create_private_chat(db, user_id, other_user_id)`: symmetric lookup
first; return the hit unchanged, else delegate to `create_private_chat`. -/
def get_or_create_private_chat (db : DB) (user_id other_user_id : Nat) :
    Except HTTPException (Chat × DB) :=
  match db.chats.find? (privateChatFilter user_id other_user_id) with
  | some existing_chat => Except.ok (existing_chat, db)
  | none => create_private_chat db user_id other_user_id

/-- `is_user_in_chat(db, chat_id, user_id)`: explicit ACTIVE row fast path,
then creator/recipient fallback which heals the membership row (best-effort
side effect) before returning true. Returns the verdict with the updated DB. -/
def is_user_in_chat (db : DB) (chat_id user_id : Nat) : Bool × DB :=
  match db.chat_members.find? (activeMemberFilter chat_id user_id) with
  | some _ => (true, db)
  | none =>
    match db.chats.find? (fun c => c.id == chat_id) with
    | none => (false, db)
    | some chat =>
      if chat.creator_id == user_id || chat.recipient_id == user_id then
        (true, ensure_user_membership db chat_id user_id)
      else
        (false, db)

/-- Number of ACTIVE membership rows for a `(chat_id, user_id)` pair; the
spec's uniqueness invariant bounds this by one. -/
def activeCount (db : DB) (chat_id user_id : Nat) : Nat :=
  db.chat_members.countP (activeMemberFilter chat_id user_id)

/-- The membership check at the top of `send_message`: the explicit ACTIVE
row lookup; on a miss, the creator/recipient fallback heals the row
(`_ensure_user_membership`) and re-queries. Returns the member row found (if
any) together with the possibly-healed database. -/
def send_membership_check (db : DB) (chat_id author_id : Nat) :
    Option ChatMember × DB :=
  match db.chat_members.find? (activeMemberFilter chat_id author_id) with
  | some m => (some m, db)
  | none =>
    match db.chats.find? (fun c => c.id == chat_id) with
    | none => (none, db)
    | some chat =>
      if chat.creator_id == author_id || chat.recipient_id == author_id then
        let db1 := ensure_user_membership db chat.id author_id
        (db1.chat_members.find? (activeMemberFilter chat_id author_id), db1)
      else
        (none, db)

/-- `send_message(db, message_data, author_id)`: membership check with the
implicit creator/recipient fallback (which heals the membership row), then
insert the message. A fresh message gets column defaults `is_deleted=False`
and `updated_at=NULL`; `created_at` is the supplied server clock `now`. -/
def send_message (db : DB) (chat_id : Nat) (content : String)
    (message_type : MessageType) (author_id : Nat) (now : Nat) :
    Except HTTPException (Message × DB) :=
  match send_membership_check db chat_id author_id with
  | (none, _) =>
    Except.error { status_code := 403, detail := "You are not a member of this chat" }
  | (some _, db1) =>
    let message : Message :=
      { id := db1.next_message_id, content := content, message_type := message_type,
        author_id := author_id, chat_id := chat_id, created_at := now,
        updated_at := none, is_deleted := false }
    Except.ok (message,
      { db1 with
        messages := db1.messages ++ [message],
        next_message_id := db1.next_message_id + 1 })

/-- Commit an in-place mutation of the message row with id `message_id`
(the ORM mutates the mapped object; row identity is the primary key). -/
def updateMessage (db : DB) (message_id : Nat) (updated : Message) : DB :=
  { db with
    messages := db.messages.map (fun m => if m.id == message_id then updated else m) }

/-- `edit_message(db, message_id, new_content, user_id)`: 404 if absent, 403
if not the author, 400 if soft-deleted, otherwise set `content` and
`updated_at` and commit. -/
def edit_message (db : DB) (message_id : Nat) (new_content : String)
    (user_id : Nat) (now : Nat) : Except HTTPException (Message × DB) :=
  match db.messages.find? (fun m => m.id == message_id) with
  | none => Except.error { status_code := 404, detail := "Message not found" }
  | some message =>
    if message.author_id != user_id then
      Except.error { status_code := 403, detail := "You can only edit your own messages" }
    else if message.is_deleted then
      Except.error { status_code := 400, detail := "Cannot edit deleted message" }
    else
      let updated := { message with content := new_content, updated_at := some now }
      Except.ok (updated, updateMessage db message_id updated)

/-- `delete_message(db, message_id, user_id)` (soft delete): 404 if absent,
403 if not the author, otherwise set `is_deleted = True` and return `True`. -/
def delete_message (db : DB) (message_id : Nat) (user_id : Nat) :
    Except HTTPException (Bool × DB) :=
  match db.messages.find? (fun m => m.id == message_id) with
  | none => Except.error { status_code := 404, detail := "Message not found" }
  | some message =>
    if message.author_id != user_id then
      Except.error { status_code := 403, detail := "You can only delete your own messages" }
    else
      Except.ok (true, updateMessage db message_id { message with is_deleted := true })

/-- An incoming `UploadFile`. `size` is the framework-reported size, which
may be absent (`None`); `stored_size` is what `os.path.getsize` reports for
the bytes actually written to disk by `shutil.copyfileobj`; `content_type`
may be absent. -/
structure UploadFile where
  filename : String
  size : Option Nat
  stored_size : Nat
  content_type : Option String
deriving DecidableEq, Repr

/-- `os.path.splitext(p)[1]` on a path without separators, walking the
reversed character list: the extension starts at the last dot, unless every
character before that dot is itself a dot (so ".bashrc" has no extension). -/
def splitextExtRev (seen : List Char) : List Char → String
  | [] => ""
  | c :: rest =>
    if c == '.' then
      if rest.any (fun d => !(d == '.')) then String.mk ('.' :: seen) else ""
    else
      splitextExtRev (c :: seen) rest

/-- `os.path.splitext(filename)[1]` for an upload filename. -/
def splitextExt (s : String) : String :=
  splitextExtRev [] s.data.reverse

/-- `str.lower()` restricted to ASCII, as applied to a file extension. -/
def pyLower (s : String) : String :=
  String.mk (s.data.map Char.toLower)

/-- The Python truthiness-guarded size check
`if file.size and file.size > MAX_FILE_SIZE`: `None` and `0` are falsy, so
the comparison only runs when a nonzero size was reported. -/
def sizeCheckFails (size : Option Nat) : Bool :=
  match size with
  | none => false
  | some s => !(s == 0) && decide (MAX_FILE_SIZE < s)

/-- `upload_file(db, file, message_id)`: reject an oversized reported size,
reject a disallowed extension, write the bytes under
`uploads/<timestamp>_<filename>` and record an attachment whose `file_size`
is the on-disk size (`os.path.getsize`). `timestamp` is the formatted
`datetime.utcnow()` string. -/
def upload_file (db : DB) (file : UploadFile) (message_id : Nat)
    (timestamp : String) : Except HTTPException (FileAttachment × DB) :=
  if sizeCheckFails file.size then
    Except.error { status_code := 400, detail := "File size exceeds maximum allowed size" }
  else if !(ALLOWED_EXTENSIONS.contains (pyLower (splitextExt file.filename))) then
    Except.error { status_code := 400, detail := "File type not allowed" }
  else
    let path := "uploads/" ++ timestamp ++ "_" ++ file.filename
    let attachment : FileAttachment :=
      { id := db.next_attachment_id, filename := file.filename, file_path := path,
        file_size := file.stored_size,
        mime_type := file.content_type.getD "application/octet-stream",
        message_id := message_id }
    Except.ok (attachment,
      { db with
        attachments := db.attachments ++ [attachment],
        next_attachment_id := db.next_attachment_id + 1 })

/-- Insertion step of `ORDER BY created_at DESC`: place `m` before the first
element strictly older than it (stable on ties). -/
def insertByCreatedDesc (m : Message) : List Message → List Message
  | [] => [m]
  | x :: xs =>
    if x.created_at < m.created_at then m :: x :: xs
    else x :: insertByCreatedDesc m xs

/-- `ORDER BY created_at DESC` as an insertion sort. -/
def sortByCreatedDesc : List Message → List Message
  | [] => []
  | x :: xs => insertByCreatedDesc x (sortByCreatedDesc xs)

/-- `get_chat_messages(db, chat_id, skip, limit)`: non-deleted messages of the
chat, newest first, then `OFFSET skip LIMIT limit`. The Python defaults are
`skip=0, limit=50`. -/
def get_chat_messages (db : DB) (chat_id : Nat) (skip : Nat) (limit : Nat) :
    List Message :=
  (((sortByCreatedDesc
      (db.messages.filter (fun m => m.chat_id == chat_id && m.is_deleted == false))).drop
    skip).take limit)

/-- `get_chat_messages` at the Python default arguments. -/
def get_chat_messages_default (db : DB) (chat_id : Nat) : List Message :=
  get_chat_messages db chat_id 0 50

/-- `get_chat_participants(db, chat_id)`: users whose id appears among the
ACTIVE membership rows of the chat. Pure read: consults only `chat_members`
and `users`, never the chat's creator/recipient, and performs no healing. -/
def get_chat_participants (db : DB) (chat_id : Nat) : List User :=
  let members := db.chat_members.filter
    (fun m => m.chat_id == chat_id && m.status == MemberStatus.ACTIVE)
  let user_ids := members.map (fun m => m.user_id)
  db.users.filter (fun u => user_ids.contains u.id)

/-! Concrete fixtures used to instantiate the theorems on closed inputs. -/

/-- A registered user with id 1. -/
def userA : User := { id := 1, username := "alice", email := "alice@example.com" }

/-- A registered user with id 2. -/
def userB : User := { id := 2, username := "bob", email := "bob@example.com" }

/-- The empty database (fresh sqlite file). -/
def dbEmpty : DB :=
  { users := [], chats := [], chat_members := [], messages := [], attachments := [],
    next_chat_id := 1, next_member_id := 1, next_message_id := 1, next_attachment_id := 1 }

/-- Two registered users, no chats yet. -/
def dbTwoUsers : DB := { dbEmpty with users := [userA, userB] }

/-- A PRIVATE chat row between users 1 and 2, as legacy data would hold it. -/
def legacyChat : Chat :=
  { id := 7, chat_type := ChatType.PRIVATE, creator_id := 1, recipient_id := 2,
    is_active := true }

/-- A chat row inserted directly with no membership rows (legacy state). -/
def dbLegacy : DB := { dbTwoUsers with chats := [legacyChat], next_chat_id := 8 }

/-- An upload whose reported size is absent while the bytes written to disk
exceed the configured maximum. -/
def oversizedFile : UploadFile :=
  { filename := "a.txt", size := none, stored_size := MAX_FILE_SIZE + 1,
    content_type := none }

/-- A well-formed small text upload. -/
def smallFile : UploadFile :=
  { filename := "notes.txt", size := some 12, stored_size := 12,
    content_type := some "text/plain" }

/-- A message authored by user 1 in the legacy chat. -/
def messageM : Message :=
  { id := 3, content := "hi", message_type := MessageType.TEXT, author_id := 1,
    chat_id := 7, created_at := 5, updated_at := none, is_deleted := false }

/-- `dbLegacy` with one message present. -/
def dbWithMessage : DB :=
  { dbLegacy with messages := [messageM], next_message_id := 4 }

/-- `dbWithMessage` with the message already soft-deleted. -/
def dbWithDeletedMessage : DB :=
  { dbLegacy with messages := [{ messageM with is_deleted := true }], next_message_id := 4 }

/-! Helper lemmas about the embedded operations. -/

theorem find?_congr_pred {α : Type} (p q : α → Bool) (h : ∀ a, p a = q a) :
    ∀ l : List α, l.find? p = l.find? q := by
  intro l
  induction l with
  | nil => rfl
  | cons x xs ih => rw [List.find?_cons, List.find?_cons, h x, ih]

theorem activeMemberFilter_eq_true {cid uid : Nat} {m : ChatMember}
    (h : activeMemberFilter cid uid m = true) :
    m.chat_id = cid ∧ m.user_id = uid ∧ m.status = MemberStatus.ACTIVE := by
  simp only [activeMemberFilter, Bool.and_eq_true, beq_iff_eq] at h
  exact ⟨h.1.1, h.1.2, h.2⟩

/-- The fresh row inserted by the reconciler for `(cid, uid)`. -/
theorem freshRow_matches (cid uid nid : Nat) :
    activeMemberFilter cid uid
      { id := nid, user_id := uid, chat_id := cid,
        role := MemberRole.PARTICIPANT, status := MemberStatus.ACTIVE } = true := by
  simp [activeMemberFilter]

theorem no_row_find?_none {db : DB} {cid uid : Nat}
    (h : ∀ m ∈ db.chat_members, ¬(m.chat_id = cid ∧ m.user_id = uid)) :
    db.chat_members.find? (activeMemberFilter cid uid) = none := by
  rw [List.find?_eq_none]
  intro m hm hmatch
  exact h m hm ⟨(activeMemberFilter_eq_true hmatch).1, (activeMemberFilter_eq_true hmatch).2.1⟩

theorem ensure_of_some {db : DB} {cid uid : Nat}
    (h : (db.chat_members.find? (activeMemberFilter cid uid)).isSome) :
    ensure_user_membership db cid uid = db := by
  unfold ensure_user_membership
  match hfind : db.chat_members.find? (activeMemberFilter cid uid) with
  | some m => rfl
  | none => rw [hfind] at h; simp at h

theorem ensure_of_none {db : DB} {cid uid : Nat}
    (h : db.chat_members.find? (activeMemberFilter cid uid) = none) :
    ensure_user_membership db cid uid =
      { db with
        chat_members := db.chat_members ++
          [{ id := db.next_member_id, user_id := uid, chat_id := cid,
             role := MemberRole.PARTICIPANT, status := MemberStatus.ACTIVE }],
        next_member_id := db.next_member_id + 1 } := by
  unfold ensure_user_membership
  rw [h]

theorem ensure_chats_eq (db : DB) (cid uid : Nat) :
    (ensure_user_membership db cid uid).chats = db.chats := by
  unfold ensure_user_membership
  cases db.chat_members.find? (activeMemberFilter cid uid) <;> rfl

theorem ensure_users_eq (db : DB) (cid uid : Nat) :
    (ensure_user_membership db cid uid).users = db.users := by
  unfold ensure_user_membership
  cases db.chat_members.find? (activeMemberFilter cid uid) <;> rfl

/-- After healing, an ACTIVE row for the healed pair is always found. -/
theorem ensure_find?_some (db : DB) (cid uid : Nat) :
    ∃ m, (ensure_user_membership db cid uid).chat_members.find?
      (activeMemberFilter cid uid) = some m := by
  match hfind : db.chat_members.find? (activeMemberFilter cid uid) with
  | some m =>
    refine ⟨m, ?_⟩
    rw [ensure_of_some (by rw [hfind]; rfl)]
    exact hfind
  | none =>
    refine ⟨{ id := db.next_member_id, user_id := uid, chat_id := cid,
              role := MemberRole.PARTICIPANT, status := MemberStatus.ACTIVE }, ?_⟩
    rw [ensure_of_none hfind]
    simp only [List.find?_append, hfind, Option.none_or, List.find?_cons,
      freshRow_matches]

theorem ensure_idempotent (db : DB) (cid uid : Nat) :
    ensure_user_membership (ensure_user_membership db cid uid) cid uid =
      ensure_user_membership db cid uid := by
  obtain ⟨m, hm⟩ := ensure_find?_some db cid uid
  exact ensure_of_some (by rw [hm]; rfl)

/-- C4: for every `(chatID, userID)` pair at most one ACTIVE membership row
exists at a time and `EnsureActiveMembership` preserves this: it is a no-op
when an ACTIVE row already exists for the pair, otherwise it inserts exactly
one new ACTIVE PARTICIPANT row; it never deletes or demotes existing rows
(the prior rows survive unchanged as a prefix), preserves the at-most-one-
ACTIVE-row bound, and repeating the call leaves the state unchanged after the
first insertion (idempotence). -/
theorem ensure_membership_invariant (db : DB) (cid uid : Nat) :
    ((db.chat_members.find? (activeMemberFilter cid uid)).isSome →
        ensure_user_membership db cid uid = db) ∧
    (db.chat_members.find? (activeMemberFilter cid uid) = none →
        ensure_user_membership db cid uid =
          { db with
            chat_members := db.chat_members ++
              [{ id := db.next_member_id, user_id := uid, chat_id := cid,
                 role := MemberRole.PARTICIPANT, status := MemberStatus.ACTIVE }],
            next_member_id := db.next_member_id + 1 }) ∧
    (∃ tail, (ensure_user_membership db cid uid).chat_members =
        db.chat_members ++ tail) ∧
    (∀ c u, activeCount db c u ≤ 1 →
        activeCount (ensure_user_membership db cid uid) c u ≤ 1) ∧
    ensure_user_membership (ensure_user_membership db cid uid) cid uid =
      ensure_user_membership db cid uid := by
  refine ⟨ensure_of_some, ensure_of_none, ?_, ?_, ensure_idempotent db cid uid⟩
  · match hfind : db.chat_members.find? (activeMemberFilter cid uid) with
    | some m =>
      rw [ensure_of_some (by rw [hfind]; rfl)]
      exact ⟨[], (List.append_nil _).symm⟩
    | none =>
      rw [ensure_of_none hfind]
      exact ⟨_, rfl⟩
  · intro c u hle
    match hfind : db.chat_members.find? (activeMemberFilter cid uid) with
    | some m =>
      rw [ensure_of_some (by rw [hfind]; rfl)]
      exact hle
    | none =>
      rw [ensure_of_none hfind]
      unfold activeCount at hle ⊢
      rw [List.countP_append]
      by_cases hcu : c = cid ∧ u = uid
      · obtain ⟨rfl, rfl⟩ := hcu
        have h0 : db.chat_members.countP (activeMemberFilter c u) = 0 := by
          rw [List.countP_eq_zero]
          exact List.find?_eq_none.mp hfind
        rw [h0]
        simp [List.countP_cons, freshRow_matches]
      · have hrow : activeMemberFilter c u
            { id := db.next_member_id, user_id := uid, chat_id := cid,
              role := MemberRole.PARTICIPANT, status := MemberStatus.ACTIVE } = false := by
          cases hb : activeMemberFilter c u
              { id := db.next_member_id, user_id := uid, chat_id := cid,
                role := MemberRole.PARTICIPANT, status := MemberStatus.ACTIVE } with
          | false => rfl
          | true =>
            obtain ⟨h1, h2, _⟩ := activeMemberFilter_eq_true hb
            exact absurd ⟨h1.symm, h2.symm⟩ hcu
        simpa [List.countP_cons, hrow] using hle

/-- Witness for `ensure_membership_invariant` at a concrete database. -/
theorem ensure_membership_invariant_witness :
    activeCount dbLegacy 7 1 ≤ 1 ∧
    activeCount (ensure_user_membership dbLegacy 7 1) 7 1 ≤ 1 ∧
    ensure_user_membership (ensure_user_membership dbLegacy 7 1) 7 1 =
      ensure_user_membership dbLegacy 7 1 :=
  ⟨by decide,
   (ensure_membership_invariant dbLegacy 7 1).2.2.2.1 7 1 (by decide),
   (ensure_membership_invariant dbLegacy 7 1).2.2.2.2⟩

/-- C1: any creator or recipient of a PRIVATE chat is treated as a member even
without an explicit membership row: for a chat row with the given id whose
creator or recipient is `uid` and a database holding no membership row for
`(cid, uid)`, `is_user_in_chat` returns true, that one call inserts an
explicit ACTIVE membership row for `uid`, and the subsequent check takes the
explicit path (returns true with no further state change). -/
theorem is_member_implicit_heals (db : DB) (chat : Chat) (cid uid : Nat)
    (hchat : db.chats.find? (fun c => c.id == cid) = some chat)
    (hrole : chat.creator_id = uid ∨ chat.recipient_id = uid)
    (hnorow : ∀ m ∈ db.chat_members, ¬(m.chat_id = cid ∧ m.user_id = uid)) :
    (is_user_in_chat db cid uid).1 = true ∧
    ({ id := db.next_member_id, user_id := uid, chat_id := cid,
       role := MemberRole.PARTICIPANT, status := MemberStatus.ACTIVE } : ChatMember) ∈
      (is_user_in_chat db cid uid).2.chat_members ∧
    is_user_in_chat (is_user_in_chat db cid uid).2 cid uid =
      (true, (is_user_in_chat db cid uid).2) := by
  have hfind : db.chat_members.find? (activeMemberFilter cid uid) = none :=
    no_row_find?_none hnorow
  have hcond : (chat.creator_id == uid || chat.recipient_id == uid) = true := by
    cases hrole with
    | inl h => simp [h]
    | inr h => simp [h]
  have hval : is_user_in_chat db cid uid = (true, ensure_user_membership db cid uid) := by
    unfold is_user_in_chat
    rw [hfind, hchat]
    simp [hcond]
  refine ⟨by rw [hval], ?_, ?_⟩
  · rw [hval]
    show _ ∈ (ensure_user_membership db cid uid).chat_members
    rw [ensure_of_none hfind]
    simp
  · rw [hval]
    obtain ⟨m, hm⟩ := ensure_find?_some db cid uid
    show is_user_in_chat (ensure_user_membership db cid uid) cid uid = _
    unfold is_user_in_chat
    rw [hm]

/-- Witness for `is_member_implicit_heals` on the legacy-data fixture. -/
theorem is_member_implicit_heals_witness :
    (is_user_in_chat dbLegacy 7 1).1 = true ∧
    ({ id := 1, user_id := 1, chat_id := 7, role := MemberRole.PARTICIPANT,
       status := MemberStatus.ACTIVE } : ChatMember) ∈
      (is_user_in_chat dbLegacy 7 1).2.chat_members ∧
    is_user_in_chat (is_user_in_chat dbLegacy 7 1).2 7 1 =
      (true, (is_user_in_chat dbLegacy 7 1).2) :=
  is_member_implicit_heals dbLegacy legacyChat 7 1 rfl (Or.inl rfl) (by decide)

theorem privateChatFilter_symm (a b : Nat) (c : Chat) :
    privateChatFilter a b c = privateChatFilter b a c := by
  unfold privateChatFilter
  rw [Bool.or_comm]

theorem newPrivateChat_matches (db : DB) (a b : Nat) :
    privateChatFilter a b (newPrivateChat db a b) = true := by
  simp [privateChatFilter, newPrivateChat]

theorem create_private_chat_of_none (db : DB) (A B : Nat) (hAB : A ≠ B)
    (u : User) (hu : db.users.find? (fun x => x.id == B) = some u)
    (hnone : db.chats.find? (privateChatFilter A B) = none) :
    create_private_chat db A B =
      Except.ok (newPrivateChat db A B, dbAfterCreateChat db A B) := by
  unfold create_private_chat
  rw [hu, if_neg (by simpa using hAB), hnone]

/-- C2: for distinct existing users A and B, two `GetOrCreatePrivateChat`
calls, the second in either argument order, return the same chat id: the
lookup is symmetric in creator/recipient, and when no chat for the unordered
pair existed beforehand, the state after the first call holds exactly one
PRIVATE chat for the pair. -/
theorem get_or_create_private_chat_symmetric (db : DB) (A B : Nat)
    (hAB : A ≠ B) (hB : ∃ u, db.users.find? (fun x => x.id == B) = some u) :
    ∃ c1 db1, get_or_create_private_chat db A B = Except.ok (c1, db1) ∧
      (∃ c2 db2, get_or_create_private_chat db1 A B = Except.ok (c2, db2) ∧
        c2.id = c1.id) ∧
      (∃ c3 db3, get_or_create_private_chat db1 B A = Except.ok (c3, db3) ∧
        c3.id = c1.id) ∧
      (db.chats.countP (privateChatFilter A B) = 0 →
        db1.chats.countP (privateChatFilter A B) = 1) := by
  obtain ⟨u, hu⟩ := hB
  match hfind : db.chats.find? (privateChatFilter A B) with
  | some c =>
    refine ⟨c, db, ?_, ⟨c, db, ?_, rfl⟩, ⟨c, db, ?_, rfl⟩, ?_⟩
    · unfold get_or_create_private_chat
      rw [hfind]
    · unfold get_or_create_private_chat
      rw [hfind]
    · unfold get_or_create_private_chat
      rw [find?_congr_pred _ _ (privateChatFilter_symm B A) db.chats, hfind]
    · intro h0
      exact absurd (List.find?_some hfind)
        (List.countP_eq_zero.mp h0 c (List.mem_of_find?_eq_some hfind))
  | none =>
    have hok : get_or_create_private_chat db A B =
        Except.ok (newPrivateChat db A B, dbAfterCreateChat db A B) := by
      unfold get_or_create_private_chat
      rw [hfind]
      exact create_private_chat_of_none db A B hAB u hu hfind
    have hchats : (dbAfterCreateChat db A B).chats =
        db.chats ++ [newPrivateChat db A B] := rfl
    have hfind1 : (dbAfterCreateChat db A B).chats.find? (privateChatFilter A B) =
        some (newPrivateChat db A B) := by
      rw [hchats, List.find?_append, hfind]
      simp [List.find?_cons, newPrivateChat_matches]
    refine ⟨newPrivateChat db A B, dbAfterCreateChat db A B, hok,
      ⟨newPrivateChat db A B, dbAfterCreateChat db A B, ?_, rfl⟩,
      ⟨newPrivateChat db A B, dbAfterCreateChat db A B, ?_, rfl⟩, ?_⟩
    · unfold get_or_create_private_chat
      rw [hfind1]
    · unfold get_or_create_private_chat
      rw [find?_congr_pred _ _ (privateChatFilter_symm B A) _, hfind1]
    · intro _
      rw [hchats, List.countP_append,
        List.countP_eq_zero.mpr (List.find?_eq_none.mp hfind)]
      simp [List.countP_cons, newPrivateChat_matches]

/-- Witness for `get_or_create_private_chat_symmetric` on two registered
users. -/
theorem get_or_create_private_chat_symmetric_witness :
    ∃ c1 db1, get_or_create_private_chat dbTwoUsers 1 2 = Except.ok (c1, db1) ∧
      (∃ c2 db2, get_or_create_private_chat db1 1 2 = Except.ok (c2, db2) ∧
        c2.id = c1.id) ∧
      (∃ c3 db3, get_or_create_private_chat db1 2 1 = Except.ok (c3, db3) ∧
        c3.id = c1.id) ∧
      (dbTwoUsers.chats.countP (privateChatFilter 1 2) = 0 →
        db1.chats.countP (privateChatFilter 1 2) = 1) :=
  get_or_create_private_chat_symmetric dbTwoUsers 1 2 (by decide) ⟨userB, rfl⟩

/-- C3 counterexample: the claimed validation order does not hold. First,
`GetOrCreatePrivateChat(1,1)` on an empty identity store fails with 404
Not Found ("Recipient user not found"), not with a 400 InvalidRequest, because
the recipient-existence check runs before the self-chat check. Second, a call
whose creator id (99) is unknown while the recipient (2) exists succeeds
outright: the creator's existence is never checked, contradicting "if either
userA or userB does not exist ... the call fails with NotFound". -/
theorem get_or_create_validation_counterexample :
    (get_or_create_private_chat dbEmpty 1 1 =
      Except.error { status_code := 404, detail := "Recipient user not found" }) ∧
    (∀ e, get_or_create_private_chat dbEmpty 1 1 = Except.error e →
      e.status_code ≠ 400) ∧
    (∃ c db1, get_or_create_private_chat { dbEmpty with users := [userB] } 99 2 =
      Except.ok (c, db1)) := by
  refine ⟨rfl, ?_, ?_⟩
  · intro e he
    have : Except.error (ε := HTTPException) (α := Chat × DB)
        { status_code := 404, detail := "Recipient user not found" } =
        Except.error e := by rw [← he]; rfl
    cases this
    decide
  · exact ⟨newPrivateChat { dbEmpty with users := [userB] } 99 2,
      dbAfterCreateChat { dbEmpty with users := [userB] } 99 2, rfl⟩

/-- C3 amended: when no PRIVATE chat already matches the pair, the recipient's
existence is validated first — an unknown recipient id yields 404 NotFound
even when `userA = userB` — and only then is the self-chat case rejected with
400 InvalidRequest; the creator's existence is never validated. -/
theorem get_or_create_validation (db : DB) (A B : Nat)
    (hnochat : db.chats.find? (privateChatFilter A B) = none) :
    (db.users.find? (fun x => x.id == B) = none →
      get_or_create_private_chat db A B =
        Except.error { status_code := 404, detail := "Recipient user not found" }) ∧
    (∀ u, db.users.find? (fun x => x.id == B) = some u → A = B →
      get_or_create_private_chat db A B =
        Except.error { status_code := 400, detail := "Cannot create chat with yourself" }) := by
  constructor
  · intro hnone
    unfold get_or_create_private_chat
    rw [hnochat]
    unfold create_private_chat
    rw [hnone]
  · intro u hu hAB
    unfold get_or_create_private_chat
    rw [hnochat]
    unfold create_private_chat
    rw [hu, if_pos (by simpa using hAB)]

/-- Witness for `get_or_create_validation` at concrete inputs. -/
theorem get_or_create_validation_witness :
    get_or_create_private_chat dbEmpty 1 1 =
      Except.error { status_code := 404, detail := "Recipient user not found" } ∧
    get_or_create_private_chat dbTwoUsers 2 2 =
      Except.error { status_code := 400, detail := "Cannot create chat with yourself" } :=
  ⟨(get_or_create_validation dbEmpty 1 1 rfl).1 rfl,
   (get_or_create_validation dbTwoUsers 2 2 rfl).2 userB rfl rfl⟩

theorem ensure_messages_eq (db : DB) (cid uid : Nat) :
    (ensure_user_membership db cid uid).messages = db.messages := by
  unfold ensure_user_membership
  cases db.chat_members.find? (activeMemberFilter cid uid) <;> rfl

theorem ensure_next_message_id_eq (db : DB) (cid uid : Nat) :
    (ensure_user_membership db cid uid).next_message_id = db.next_message_id := by
  unfold ensure_user_membership
  cases db.chat_members.find? (activeMemberFilter cid uid) <;> rfl

/-- The membership check inside `send_message` agrees with `is_user_in_chat`:
it yields a row exactly when `is_user_in_chat` answers true, and performs the
same healing side effect. -/
theorem send_membership_check_cases (db : DB) (cid author : Nat) :
    (is_user_in_chat db cid author = (false, db) ∧
      send_membership_check db cid author = (none, db)) ∨
    (∃ m, (is_user_in_chat db cid author).1 = true ∧
      send_membership_check db cid author = (some m, (is_user_in_chat db cid author).2)) := by
  unfold send_membership_check is_user_in_chat
  cases hm : db.chat_members.find? (activeMemberFilter cid author) with
  | some m => exact Or.inr ⟨m, rfl, rfl⟩
  | none =>
    cases hchat : db.chats.find? (fun c => c.id == cid) with
    | none => exact Or.inl ⟨rfl, rfl⟩
    | some chat =>
      cases hcond : (chat.creator_id == author || chat.recipient_id == author) with
      | false => simp only [hcond, Bool.false_eq_true, if_false]
                 exact Or.inl ⟨by trivial, by trivial⟩
      | true =>
        simp only [hcond, if_true]
        have hid : chat.id = cid := by simpa using List.find?_some hchat
        rw [hid]
        obtain ⟨m, hm2⟩ := ensure_find?_some db cid author
        exact Or.inr ⟨m, by trivial, by rw [hm2]⟩

/-- C5: `Send` fails with 403 Forbidden exactly when `is_user_in_chat` is
false; 403 Forbidden is the only error it can produce; and when the author is
a member (explicitly, or implicitly as creator/recipient with zero prior
membership rows) it inserts a message with `is_deleted = false` and
`updated_at = NULL`. -/
theorem send_message_forbidden_iff (db : DB) (cid : Nat) (content : String)
    (mt : MessageType) (author now : Nat) :
    (send_message db cid content mt author now =
        Except.error { status_code := 403, detail := "You are not a member of this chat" } ↔
      (is_user_in_chat db cid author).1 = false) ∧
    (∀ e, send_message db cid content mt author now = Except.error e →
      e = { status_code := 403, detail := "You are not a member of this chat" }) ∧
    ((is_user_in_chat db cid author).1 = true →
      ∃ msg db1, send_message db cid content mt author now = Except.ok (msg, db1) ∧
        msg.is_deleted = false ∧ msg.updated_at = none ∧ msg.chat_id = cid ∧
        msg.author_id = author ∧ msg.content = content ∧ msg ∈ db1.messages) := by
  rcases send_membership_check_cases db cid author with ⟨hmem, hcheck⟩ | ⟨m, hmem, hcheck⟩
  · have hsend : send_message db cid content mt author now =
        Except.error { status_code := 403, detail := "You are not a member of this chat" } := by
      unfold send_message
      rw [hcheck]
    refine ⟨⟨fun _ => by rw [hmem], fun _ => hsend⟩, ?_, ?_⟩
    · intro e he
      rw [hsend] at he
      cases he
      rfl
    · intro h
      rw [hmem] at h
      cases h
  · have hsend : send_message db cid content mt author now =
        Except.ok
          (⟨((is_user_in_chat db cid author).2).next_message_id, content, mt,
            author, cid, now, none, false⟩,
           { (is_user_in_chat db cid author).2 with
             messages := ((is_user_in_chat db cid author).2).messages ++
               [⟨((is_user_in_chat db cid author).2).next_message_id, content, mt,
                 author, cid, now, none, false⟩],
             next_message_id := ((is_user_in_chat db cid author).2).next_message_id + 1 }) := by
      unfold send_message
      rw [hcheck]
    refine ⟨⟨?_, ?_⟩, ?_, ?_⟩
    · intro h
      rw [hsend] at h
      cases h
    · intro h
      rw [hmem] at h
      cases h
    · intro e he
      rw [hsend] at he
      cases he
    · intro _
      refine ⟨_, _, hsend, rfl, rfl, rfl, rfl, rfl, ?_⟩
      simp

/-- Witness for `send_message_forbidden_iff`: the recipient of the legacy
chat (zero membership rows) sends successfully, a stranger gets 403. -/
theorem send_message_forbidden_iff_witness :
    (∃ msg db1, send_message dbLegacy 7 "hi" MessageType.TEXT 2 10 =
        Except.ok (msg, db1) ∧
      msg.is_deleted = false ∧ msg.updated_at = none ∧ msg.chat_id = 7 ∧
      msg.author_id = 2 ∧ msg.content = "hi" ∧ msg ∈ db1.messages) ∧
    send_message dbLegacy 7 "hi" MessageType.TEXT 3 10 =
      Except.error { status_code := 403, detail := "You are not a member of this chat" } :=
  ⟨(send_message_forbidden_iff dbLegacy 7 "hi" MessageType.TEXT 2 10).2.2 (by decide),
   (send_message_forbidden_iff dbLegacy 7 "hi" MessageType.TEXT 3 10).1.mpr (by decide)⟩

/-- C6: `Edit` fails 404 when the message is absent, 403 when the editor is
not the author, 400 ("Cannot edit deleted message", the spec's InvalidState)
when the message is soft-deleted, and otherwise rewrites exactly `content`
and `updated_at` of the stored row, leaving every other field unchanged. -/
theorem edit_message_spec (db : DB) (mid : Nat) (newc : String) (uid now : Nat) :
    (db.messages.find? (fun m => m.id == mid) = none →
      edit_message db mid newc uid now =
        Except.error { status_code := 404, detail := "Message not found" }) ∧
    (∀ m, db.messages.find? (fun m => m.id == mid) = some m → m.author_id ≠ uid →
      edit_message db mid newc uid now =
        Except.error { status_code := 403, detail := "You can only edit your own messages" }) ∧
    (∀ m, db.messages.find? (fun m => m.id == mid) = some m → m.author_id = uid →
      m.is_deleted = true →
      edit_message db mid newc uid now =
        Except.error { status_code := 400, detail := "Cannot edit deleted message" }) ∧
    (∀ m, db.messages.find? (fun m => m.id == mid) = some m → m.author_id = uid →
      m.is_deleted = false →
      edit_message db mid newc uid now =
        Except.ok ({ m with content := newc, updated_at := some now },
          updateMessage db mid { m with content := newc, updated_at := some now })) := by
  refine ⟨?_, ?_, ?_, ?_⟩
  · intro h
    unfold edit_message
    rw [h]
  · intro m hm hne
    simp only [edit_message, hm]
    rw [if_pos (by simpa using hne)]
  · intro m hm hauth hdel
    simp only [edit_message, hm]
    rw [if_neg (by simp [hauth]), if_pos hdel]
  · intro m hm hauth hdel
    simp only [edit_message, hm]
    rw [if_neg (by simp [hauth]), if_neg (by simp [hdel])]

/-- Witness for `edit_message_spec`: all four outcomes on concrete stores. -/
theorem edit_message_spec_witness :
    edit_message dbWithMessage 9 "x" 1 20 =
      Except.error { status_code := 404, detail := "Message not found" } ∧
    edit_message dbWithMessage 3 "x" 2 20 =
      Except.error { status_code := 403, detail := "You can only edit your own messages" } ∧
    edit_message dbWithDeletedMessage 3 "x" 1 20 =
      Except.error { status_code := 400, detail := "Cannot edit deleted message" } ∧
    edit_message dbWithMessage 3 "x" 1 20 =
      Except.ok ({ messageM with content := "x", updated_at := some 20 },
        updateMessage dbWithMessage 3 { messageM with content := "x", updated_at := some 20 }) :=
  ⟨(edit_message_spec dbWithMessage 9 "x" 1 20).1 rfl,
   (edit_message_spec dbWithMessage 3 "x" 2 20).2.1 messageM rfl (by decide),
   (edit_message_spec dbWithDeletedMessage 3 "x" 1 20).2.2.1
     { messageM with is_deleted := true } rfl rfl rfl,
   (edit_message_spec dbWithMessage 3 "x" 1 20).2.2.2 messageM rfl rfl rfl⟩

theorem find?_update_self (l : List Message) (mid : Nat) (u : Message)
    (hu : (u.id == mid) = true) (h : (l.find? (fun m => m.id == mid)).isSome) :
    (l.map (fun x => if x.id == mid then u else x)).find? (fun m => m.id == mid) =
      some u := by
  induction l with
  | nil => simp at h
  | cons x xs ih =>
    rw [List.map_cons]
    by_cases hx : (x.id == mid) = true
    · rw [if_pos hx]
      simp only [List.find?_cons, hu]
    · rw [if_neg hx]
      have hxf : (x.id == mid) = false := by simpa using hx
      simp only [List.find?_cons, hxf]
      simp only [List.find?_cons, hxf] at h
      exact ih h

theorem map_update_idem (l : List Message) (mid : Nat) (u : Message)
    (hu : (u.id == mid) = true) :
    ((l.map (fun x => if x.id == mid then u else x)).map
        (fun x => if x.id == mid then u else x)) =
      l.map (fun x => if x.id == mid then u else x) := by
  induction l with
  | nil => rfl
  | cons x xs ih =>
    simp only [List.map_cons, ih]
    by_cases hx : (x.id == mid) = true
    · rw [if_pos hx, if_pos hu]
    · rw [if_neg hx, if_neg hx]

theorem updateMessage_idem (db : DB) (mid : Nat) (u : Message)
    (hu : (u.id == mid) = true) :
    updateMessage (updateMessage db mid u) mid u = updateMessage db mid u := by
  unfold updateMessage
  congr 1
  exact map_update_idem db.messages mid u hu

/-- C7: `SoftDelete` fails 404 when the message is absent and 403 when the
requester is not the author (same rules as edit, even for a chat member);
otherwise it sets `is_deleted = true` — with no deleted-state guard, so
re-deleting an already-deleted message by its author succeeds again and
leaves the state unchanged (idempotent). -/
theorem delete_message_spec (db : DB) (mid uid : Nat) :
    (db.messages.find? (fun m => m.id == mid) = none →
      delete_message db mid uid =
        Except.error { status_code := 404, detail := "Message not found" }) ∧
    (∀ m, db.messages.find? (fun m => m.id == mid) = some m → m.author_id ≠ uid →
      delete_message db mid uid =
        Except.error { status_code := 403, detail := "You can only delete your own messages" }) ∧
    (∀ m, db.messages.find? (fun m => m.id == mid) = some m → m.author_id = uid →
      delete_message db mid uid =
        Except.ok (true, updateMessage db mid { m with is_deleted := true })) ∧
    (∀ db1, delete_message db mid uid = Except.ok (true, db1) →
      delete_message db1 mid uid = Except.ok (true, db1)) := by
  refine ⟨?_, ?_, ?_, ?_⟩
  · intro h
    unfold delete_message
    rw [h]
  · intro m hm hne
    simp only [delete_message, hm]
    rw [if_pos (by simpa using hne)]
  · intro m hm hauth
    simp only [delete_message, hm]
    rw [if_neg (by simp [hauth])]
  · intro db1 h
    match hm : db.messages.find? (fun m => m.id == mid) with
    | none =>
      simp only [delete_message, hm] at h
      exact Except.noConfusion h
    | some m =>
      simp only [delete_message, hm] at h
      by_cases hauth : m.author_id = uid
      · rw [if_neg (by simp [hauth])] at h
        have hdb1 : db1 = updateMessage db mid { m with is_deleted := true } := by
          cases h
          rfl
        subst hdb1
        have hid : (m.id == mid) = true := by simpa using List.find?_some hm
        have hu : (({ m with is_deleted := true } : Message).id == mid) = true := hid
        have hfind1 : (updateMessage db mid { m with is_deleted := true }).messages.find?
            (fun x => x.id == mid) = some { m with is_deleted := true } :=
          find?_update_self db.messages mid _ hu (by rw [hm]; rfl)
        simp only [delete_message, hfind1]
        rw [if_neg (by simp [hauth])]
        rw [updateMessage_idem db mid _ hu]
      · rw [if_pos (by simpa using hauth)] at h
        cases h

/-- Witness for `delete_message_spec`: absent, non-author, author delete and
re-delete on the concrete store. -/
theorem delete_message_spec_witness :
    delete_message dbWithMessage 9 1 =
      Except.error { status_code := 404, detail := "Message not found" } ∧
    delete_message dbWithMessage 3 2 =
      Except.error { status_code := 403, detail := "You can only delete your own messages" } ∧
    delete_message dbWithMessage 3 1 =
      Except.ok (true, updateMessage dbWithMessage 3 { messageM with is_deleted := true }) ∧
    delete_message (updateMessage dbWithMessage 3 { messageM with is_deleted := true }) 3 1 =
      Except.ok (true, updateMessage dbWithMessage 3 { messageM with is_deleted := true }) :=
  ⟨(delete_message_spec dbWithMessage 9 1).1 rfl,
   (delete_message_spec dbWithMessage 3 2).2.1 messageM rfl (by decide),
   (delete_message_spec dbWithMessage 3 1).2.2.1 messageM rfl rfl,
   (delete_message_spec dbWithMessage 3 1).2.2.2
     (updateMessage dbWithMessage 3 { messageM with is_deleted := true })
     ((delete_message_spec dbWithMessage 3 1).2.2.1 messageM rfl rfl)⟩

theorem mem_insertByCreatedDesc {a m : Message} {l : List Message} :
    a ∈ insertByCreatedDesc m l ↔ a = m ∨ a ∈ l := by
  induction l with
  | nil => simp [insertByCreatedDesc]
  | cons x xs ih =>
    unfold insertByCreatedDesc
    by_cases hx : x.created_at < m.created_at
    · simp [hx]
    · simp only [hx, if_false, List.mem_cons, ih]
      tauto

theorem mem_sortByCreatedDesc {a : Message} {l : List Message} :
    a ∈ sortByCreatedDesc l ↔ a ∈ l := by
  induction l with
  | nil => simp [sortByCreatedDesc]
  | cons x xs ih => simp [sortByCreatedDesc, mem_insertByCreatedDesc, ih]

theorem pairwise_insertByCreatedDesc {m : Message} {l : List Message}
    (h : l.Pairwise (fun a b => b.created_at ≤ a.created_at)) :
    (insertByCreatedDesc m l).Pairwise (fun a b => b.created_at ≤ a.created_at) := by
  induction l with
  | nil => simp [insertByCreatedDesc]
  | cons x xs ih =>
    unfold insertByCreatedDesc
    rcases List.pairwise_cons.mp h with ⟨hx, hxs⟩
    by_cases hlt : x.created_at < m.created_at
    · rw [if_pos hlt]
      refine List.pairwise_cons.mpr ⟨?_, h⟩
      intro b hb
      rcases List.mem_cons.mp hb with rfl | hb
      · exact Nat.le_of_lt hlt
      · exact le_trans (hx b hb) (Nat.le_of_lt hlt)
    · rw [if_neg hlt]
      refine List.pairwise_cons.mpr ⟨?_, ih hxs⟩
      intro b hb
      rcases mem_insertByCreatedDesc.mp hb with rfl | hb
      · exact Nat.le_of_not_lt hlt
      · exact hx b hb

theorem pairwise_sortByCreatedDesc (l : List Message) :
    (sortByCreatedDesc l).Pairwise (fun a b => b.created_at ≤ a.created_at) := by
  induction l with
  | nil => simp [sortByCreatedDesc]
  | cons x xs ih => exact pairwise_insertByCreatedDesc ih

/-- C8: `ListMessages` never returns a soft-deleted message, only returns
messages of the requested chat, orders them by descending creation time
(newest first), caps the page at `limit` (Python default 50), and is
restartable via the offset: the page at `(skip, limit)` is the `skip`-drop of
the single page at `(0, skip + limit)`. -/
theorem get_chat_messages_spec (db : DB) (cid skip limit : Nat) :
    (∀ m ∈ get_chat_messages db cid skip limit,
        m.is_deleted = false ∧ m.chat_id = cid) ∧
    (get_chat_messages db cid skip limit).Pairwise
      (fun a b => b.created_at ≤ a.created_at) ∧
    (get_chat_messages db cid skip limit).length ≤ limit ∧
    get_chat_messages db cid skip limit =
      (get_chat_messages db cid 0 (skip + limit)).drop skip ∧
    get_chat_messages_default db cid = get_chat_messages db cid 0 50 := by
  refine ⟨?_, ?_, ?_, ?_, rfl⟩
  · intro m hm
    unfold get_chat_messages at hm
    have h1 : m ∈ sortByCreatedDesc
        (db.messages.filter (fun m => m.chat_id == cid && m.is_deleted == false)) :=
      List.mem_of_mem_drop (List.mem_of_mem_take hm)
    have h2 := (List.mem_filter.mp (mem_sortByCreatedDesc.mp h1)).2
    simp only [Bool.and_eq_true, beq_iff_eq] at h2
    exact ⟨h2.2, h2.1⟩
  · unfold get_chat_messages
    exact (pairwise_sortByCreatedDesc _).sublist
      ((List.take_sublist _ _).trans (List.drop_sublist _ _))
  · exact List.length_take_le _ _
  · unfold get_chat_messages
    rw [List.drop_zero, List.drop_take, Nat.add_sub_cancel_left]

/-- Witness for `get_chat_messages_spec` on the concrete store. -/
theorem get_chat_messages_spec_witness :
    messageM ∈ get_chat_messages dbWithMessage 7 0 50 ∧
    messageM.is_deleted = false ∧ messageM.chat_id = 7 :=
  ⟨by decide, (get_chat_messages_spec dbWithMessage 7 0 50).1 messageM (by decide)⟩

/-- C9 counterexample: the stored-attachment size invariant fails. An upload
whose framework-reported `size` is `None` skips the size check entirely
(`if file.size and ...` is falsy), yet the bytes written to disk may exceed
`MAX_FILE_SIZE`; the recorded `file_size` is taken from `os.path.getsize`,
so a FileAttachment with `file_size > MAX_FILE_SIZE` is stored. -/
theorem upload_file_size_counterexample :
    ∃ att db1, upload_file dbWithMessage oversizedFile 3 "20260101_000000" =
        Except.ok (att, db1) ∧
      att ∈ db1.attachments ∧ MAX_FILE_SIZE < att.file_size := by
  refine ⟨{ id := 1, filename := "a.txt",
            file_path := "uploads/20260101_000000_a.txt",
            file_size := MAX_FILE_SIZE + 1,
            mime_type := "application/octet-stream", message_id := 3 },
          ({ dbWithMessage with
             attachments :=
               [{ id := 1, filename := "a.txt",
                  file_path := "uploads/20260101_000000_a.txt",
                  file_size := MAX_FILE_SIZE + 1,
                  mime_type := "application/octet-stream", message_id := 3 }],
             next_attachment_id := 2 } : DB), rfl, by decide, by decide⟩

/-- C9 amended: `Attach` rejects an oversized upload only when a nonzero size
was reported (`file.size` set); the extension allow-list check always runs, so
every stored attachment has an allowed extension; the stored `file_size` is
the on-disk byte count, and it is bounded by `MAX_FILE_SIZE` only under the
assumption that the reported size equals the stored size. -/
theorem upload_file_validation (db : DB) (file : UploadFile) (mid : Nat)
    (ts : String) :
    (∀ s, file.size = some s → MAX_FILE_SIZE < s →
      upload_file db file mid ts =
        Except.error { status_code := 400, detail := "File size exceeds maximum allowed size" }) ∧
    (∀ att db1, upload_file db file mid ts = Except.ok (att, db1) →
      ALLOWED_EXTENSIONS.contains (pyLower (splitextExt att.filename)) = true ∧
      att.file_size = file.stored_size ∧
      (file.size = some file.stored_size → att.file_size ≤ MAX_FILE_SIZE)) := by
  constructor
  · intro s hs hgt
    have hfail : sizeCheckFails file.size = true := by
      rw [hs]
      unfold sizeCheckFails
      have hs0 : (s == 0) = false := by
        simp only [beq_eq_false_iff_ne]
        omega
      simp [hs0, hgt]
    unfold upload_file
    rw [if_pos hfail]
  · intro att db1 h
    by_cases h1 : sizeCheckFails file.size = true
    · unfold upload_file at h
      rw [if_pos h1] at h
      exact Except.noConfusion h
    · by_cases h2 : ALLOWED_EXTENSIONS.contains (pyLower (splitextExt file.filename)) = true
      · unfold upload_file at h
        rw [if_neg h1, if_neg (by rw [h2]; decide)] at h
        simp only [Except.ok.injEq, Prod.mk.injEq] at h
        obtain ⟨ha, hd⟩ := h
        subst ha
        refine ⟨h2, rfl, ?_⟩
        intro hsz
        rw [hsz] at h1
        unfold sizeCheckFails at h1
        show file.stored_size ≤ MAX_FILE_SIZE
        by_cases hz : file.stored_size = 0
        · omega
        · have : ¬ MAX_FILE_SIZE < file.stored_size := by
            intro hlt
            apply h1
            simp [beq_eq_false_iff_ne, hz, hlt]
          omega
      · unfold upload_file at h
        have hc : ALLOWED_EXTENSIONS.contains (pyLower (splitextExt file.filename)) = false := by
          simpa using h2
        rw [if_neg h1, if_pos (by rw [hc]; decide)] at h
        exact Except.noConfusion h

/-- Witness for `upload_file_validation`: an oversized reported upload is
rejected, a small accurate text upload is stored within bounds. -/
theorem upload_file_validation_witness :
    upload_file dbWithMessage
      { filename := "big.txt", size := some (MAX_FILE_SIZE + 1),
        stored_size := MAX_FILE_SIZE + 1, content_type := none } 3 "ts" =
      Except.error { status_code := 400, detail := "File size exceeds maximum allowed size" } ∧
    (ALLOWED_EXTENSIONS.contains (pyLower (splitextExt
        ({ id := 1, filename := "notes.txt", file_path := "uploads/ts_notes.txt",
           file_size := 12, mime_type := "text/plain",
           message_id := 3 } : FileAttachment).filename)) = true ∧
     ({ id := 1, filename := "notes.txt", file_path := "uploads/ts_notes.txt",
        file_size := 12, mime_type := "text/plain",
        message_id := 3 } : FileAttachment).file_size = smallFile.stored_size ∧
     (smallFile.size = some smallFile.stored_size →
       ({ id := 1, filename := "notes.txt", file_path := "uploads/ts_notes.txt",
          file_size := 12, mime_type := "text/plain",
          message_id := 3 } : FileAttachment).file_size ≤ MAX_FILE_SIZE)) :=
  ⟨(upload_file_validation dbWithMessage
      { filename := "big.txt", size := some (MAX_FILE_SIZE + 1),
        stored_size := MAX_FILE_SIZE + 1, content_type := none } 3 "ts").1
      (MAX_FILE_SIZE + 1) rfl (by decide),
   (upload_file_validation dbWithMessage smallFile 3 "ts").2
      { id := 1, filename := "notes.txt", file_path := "uploads/ts_notes.txt",
        file_size := 12, mime_type := "text/plain", message_id := 3 }
      { dbWithMessage with
        attachments :=
          [{ id := 1, filename := "notes.txt",
             file_path := "uploads/ts_notes.txt", file_size := 12,
             mime_type := "text/plain", message_id := 3 }],
        next_attachment_id := 2 } rfl⟩

/-- Membership characterization of the participant listing: exactly the
stored users holding an explicit ACTIVE membership row for the chat. -/
theorem mem_get_chat_participants_iff (db : DB) (cid : Nat) (u : User) :
    u ∈ get_chat_participants db cid ↔
      u ∈ db.users ∧ ∃ m ∈ db.chat_members,
        m.chat_id = cid ∧ m.user_id = u.id ∧ m.status = MemberStatus.ACTIVE := by
  unfold get_chat_participants
  simp only [List.mem_filter, List.elem_iff, List.mem_map, Bool.and_eq_true,
    beq_iff_eq]
  constructor
  · rintro ⟨hu, m, ⟨hm, hcid, hst⟩, hid⟩
    exact ⟨hu, m, hm, hcid, hid, hst⟩
  · rintro ⟨hu, m, hm, hcid, hid, hst⟩
    exact ⟨hu, m, ⟨hm, hcid, hst⟩, hid⟩

/-- C10: `ListParticipants` returns exactly the users holding an explicit
ACTIVE membership row for the chat; a creator or recipient whose membership
is only implicit (no membership row) is omitted from the participant list
even though `is_user_in_chat` answers true for the same user — the listing
is a pure read (it returns no updated state, so it performs no healing) and
never consults the chat's creator/recipient columns. -/
theorem get_chat_participants_spec (db : DB) (cid : Nat) :
    (∀ u, u ∈ get_chat_participants db cid ↔
      u ∈ db.users ∧ ∃ m ∈ db.chat_members,
        m.chat_id = cid ∧ m.user_id = u.id ∧ m.status = MemberStatus.ACTIVE) ∧
    (∀ uid chat,
      (∀ m ∈ db.chat_members, ¬(m.chat_id = cid ∧ m.user_id = uid)) →
      db.chats.find? (fun c => c.id == cid) = some chat →
      (chat.creator_id = uid ∨ chat.recipient_id = uid) →
      (∀ u ∈ get_chat_participants db cid, u.id ≠ uid) ∧
      (is_user_in_chat db cid uid).1 = true) := by
  refine ⟨fun u => mem_get_chat_participants_iff db cid u, ?_⟩
  intro uid chat hnorow hchat hrole
  constructor
  · intro u hu heq
    obtain ⟨-, m, hm, hcid2, hid2, -⟩ := (mem_get_chat_participants_iff db cid u).mp hu
    exact hnorow m hm ⟨hcid2, by rw [hid2, heq]⟩
  · have hfind : db.chat_members.find? (activeMemberFilter cid uid) = none :=
      no_row_find?_none hnorow
    have hcond : (chat.creator_id == uid || chat.recipient_id == uid) = true := by
      cases hrole with
      | inl h => simp [h]
      | inr h => simp [h]
    unfold is_user_in_chat
    rw [hfind, hchat]
    simp [hcond]

/-- Witness for `get_chat_participants_spec`: in the legacy state the creator
is not listed as a participant while `is_user_in_chat` answers true. -/
theorem get_chat_participants_spec_witness :
    (userA ∈ get_chat_participants dbLegacy 7 ↔
      userA ∈ dbLegacy.users ∧ ∃ m ∈ dbLegacy.chat_members,
        m.chat_id = 7 ∧ m.user_id = userA.id ∧ m.status = MemberStatus.ACTIVE) ∧
    (is_user_in_chat dbLegacy 7 1).1 = true :=
  ⟨(get_chat_participants_spec dbLegacy 7).1 userA,
   ((get_chat_participants_spec dbLegacy 7).2 1 legacyChat (by decide) rfl
     (Or.inl rfl)).2⟩
